import Mathlib

/-!
Verification of the fireauth2 OAuth2 protocol engine against its design
specification. Each definition is a shallow embedding of the corresponding
Rust item, with the file and item named in its doc comment. External
collaborators (the provider HTTP endpoints, the identity-token verifier and
the Firestore driver) are modelled as oracles supplied through a `WorldOracle`
structure; the user token store is explicit state.
-/

set_option maxRecDepth 4000

/-- Crate error type, from `src/fireauth2/src/error.rs` (`enum Error`): the
variants the protocol engine can produce. Variants for externally produced
errors carry the rendered message of the wrapped error. -/
inductive Error where
  | firestore (msg : String)
  | userNotFound
  | invalidPromptValue (value : String)
  | tokenExchangeFailed (because : String)
  | tokenRevocationFailed (because : String)
  | missingConfigField (field : String)
deriving DecidableEq, Repr

/-- The `thiserror` display strings of `Error`, from the `#[error(...)]`
attributes in `src/fireauth2/src/error.rs`. `Firestore` is `transparent`,
so it renders as the wrapped message. -/
def Error.render : Error → String
  | .firestore msg => msg
  | .userNotFound => "No Google user found"
  | .invalidPromptValue value => "Invalid prompt value: " ++ value
  | .tokenExchangeFailed because => "Failed to exchange token: " ++ because
  | .tokenRevocationFailed because => "Failed to revoke token: " ++ because
  | .missingConfigField field => "Missing required config field `" ++ field ++ "`"

/-- `Prompt`, from
`src/fireauth2/src/client/authorization/extra_params/prompt.rs`. -/
inductive Prompt where
  | none
  | consent
  | selectAccount
deriving DecidableEq, Repr

/-- `Prompt::from_str`, from `prompt.rs` lines 30-41. -/
def Prompt.fromStr (s : String) : Except Error Prompt :=
  match s with
  | "none" => .ok .none
  | "consent" => .ok .consent
  | "select_account" => .ok .selectAccount
  | other => .error (.invalidPromptValue other)

/-- `impl fmt::Display for Prompt`, from `prompt.rs` lines 43-51. -/
def Prompt.toString : Prompt → String
  | .none => "none"
  | .consent => "consent"
  | .selectAccount => "select_account"

/-- `PromptList::default`, from `prompt.rs` lines 71-75: the default prompt
list is `vec![Prompt::None]`. -/
def PromptList.default : List Prompt := [Prompt.none]

/-- `AccessType`, from
`src/fireauth2/src/client/authorization/extra_params/access_type.rs`;
`Online` carries the derived `#[default]`. -/
inductive AccessType where
  | online
  | offline
deriving DecidableEq, Repr

/-- `impl fmt::Display for AccessType`, from `access_type.rs` lines 37-44. -/
def AccessType.toString : AccessType → String
  | .online => "online"
  | .offline => "offline"

/-- `ExtraParam::ACCESS_TYPE`, from
`src/fireauth2/src/client/types/extra_params.rs` line 29 (`ExtraParam` is a
newtype over a static string slice, embedded as `String`). -/
def ExtraParam.ACCESS_TYPE : String := "access_type"

/-- `ExtraParam::PROMPT`, from `extra_params.rs` line 32. -/
def ExtraParam.PROMPT : String := "prompt"

/-- `ExtraParam::INCLUDE_GRANTED_SCOPES`, from `extra_params.rs`
lines 22-23. -/
def ExtraParam.INCLUDE_GRANTED_SCOPES : String := "include_granted_scopes"

/-- `ExtraParam::LOGIN_HINT`, from `extra_params.rs` line 26. -/
def ExtraParam.LOGIN_HINT : String := "login_hint"

/-- `impl IntoExtraParam for PromptList`, from `prompt.rs` lines 53-65:
space-join the displayed prompts. -/
def PromptList.intoExtraParam (ps : List Prompt) : String × String :=
  (ExtraParam.PROMPT, String.intercalate " " (ps.map Prompt.toString))

/-- `RequestAccessTokenExtraParams`, from
`src/fireauth2/src/client/authorization/flow.rs` lines 18-42, with the
`#[serde(default)]` defaults of each field: `IncludeGrantedScopes::default`
is `true` (`include_granted_scopes.rs` lines 20-24), `AccessType::default`
is `Online`, `PromptList::default` is `[Prompt::None]`. -/
structure RequestAccessTokenExtraParams where
  include_granted_scopes : Bool := true
  login_hint : Option String := Option.none
  access_type : AccessType := AccessType.online
  prompt : List Prompt := PromptList.default
deriving DecidableEq, Repr

/-- `RequestAccessTokenExtraParams::to_extra_params`, from `flow.rs`
lines 44-69: pushes `access_type`, then `include_granted_scopes` only when
it is true, then `login_hint` when present, then `prompt`. -/
def RequestAccessTokenExtraParams.toExtraParams
    (p : RequestAccessTokenExtraParams) : List (String × String) :=
  [(ExtraParam.ACCESS_TYPE, p.access_type.toString)]
    ++ (if p.include_granted_scopes then
          [(ExtraParam.INCLUDE_GRANTED_SCOPES,
            toString p.include_granted_scopes)]
        else [])
    ++ (match p.login_hint with
        | some hint => [(ExtraParam.LOGIN_HINT, hint)]
        | Option.none => [])
    ++ [PromptList.intoExtraParam p.prompt]

/-- Helper for `rustSplitWhitespace`: walk the characters, accumulating the
current word reversed; a whitespace character closes the word (empty words
are not emitted). -/
def splitWhitespaceAux : List Char → List Char → List String
  | [], acc => if acc.isEmpty then [] else [String.mk acc.reverse]
  | c :: rest, acc =>
    if c.isWhitespace then
      (if acc.isEmpty then [] else [String.mk acc.reverse])
        ++ splitWhitespaceAux rest []
    else
      splitWhitespaceAux rest (c :: acc)

/-- Rust `str::split_whitespace`: the whitespace-separated non-empty words
of the string, in order. -/
def rustSplitWhitespace (s : String) : List String :=
  splitWhitespaceAux s.data []

/-- Helper for `rustSplitComma`: walk the characters, accumulating the
current piece reversed; a comma closes the piece (empty pieces are kept,
as Rust `str::split` does). -/
def splitCommaAux : List Char → List Char → List String
  | [], acc => [String.mk acc.reverse]
  | c :: rest, acc =>
    if c = ',' then String.mk acc.reverse :: splitCommaAux rest []
    else splitCommaAux rest (c :: acc)

/-- Rust `str::split(',')`: the comma-separated pieces of the string,
empty pieces included. -/
def rustSplitComma (s : String) : List String :=
  splitCommaAux s.data []

/-- Rust `str::trim`: the string with leading and trailing whitespace
characters removed. -/
def rustTrim (s : String) : String :=
  String.mk
    (((s.data.dropWhile Char.isWhitespace).reverse.dropWhile
        Char.isWhitespace).reverse)

/-- The two serde input shapes the `ScopeList` visitor accepts, from
`src/fireauth2/src/client/authorization/scope.rs` (`visit_str` and
`visit_seq`). -/
inductive ScopesInput where
  | str (s : String)
  | arr (xs : List String)
deriving DecidableEq, Repr

/-- `ScopeList::deserialize`, from `scope.rs` lines 24-79. The string form
collects the words of `split_whitespace`; an empty result is an error in
both forms. A `Scope` is a newtype over `String`, embedded as `String`. -/
def ScopeList.deserialize : ScopesInput → Except String (List String)
  | .str v =>
    let scopes := rustSplitWhitespace v
    if scopes.isEmpty then
      .error "scopes string must contain at least one scope"
    else
      .ok scopes
  | .arr xs =>
    if xs.isEmpty then
      .error "scopes array must contain at least one scope"
    else
      .ok xs

/-- The two serde input shapes of the untagged `PromptInput` enum inside
`PromptList::deserialize` (`prompt.rs` lines 82-87): a JSON array of strings
or a single JSON string. -/
inductive PromptInput where
  | list (xs : List String)
  | str (s : String)
deriving DecidableEq, Repr

/-- The derived `Deserialize` of a single `Prompt` variant with
`#[serde(rename_all = "snake_case")]` (`prompt.rs` lines 9-28): accepts
exactly the strings `none`, `consent`, `select_account`. -/
def promptOfString? (s : String) : Option Prompt :=
  match s with
  | "none" => some Prompt.none
  | "consent" => some Prompt.consent
  | "select_account" => some Prompt.selectAccount
  | _ => Option.none

/-- The per-token parse of the string arm of `PromptList::deserialize`
(`prompt.rs` lines 97-104): `Prompt::from_str(part.trim())` with the error
mapped to a custom message naming the offending token. -/
def promptTokenParse (part : String) : Except String Prompt :=
  match Prompt.fromStr (rustTrim part) with
  | .ok p => .ok p
  | .error _ =>
    .error ("Invalid prompt value: \x27" ++ rustTrim part ++ "\x27")

/-- `PromptList::deserialize`, from `prompt.rs` lines 77-111. The array arm
is the derived `Vec<Prompt>` deserialization; if any element is not a known
variant, the untagged enum as a whole fails with serde's generic message.
The string arm splits on commas, drops parts that trim to empty, and parses
each trimmed part. -/
def PromptList.deserialize : PromptInput → Except String (List Prompt)
  | .list xs =>
    match xs.mapM promptOfString? with
    | some prompts => .ok prompts
    | Option.none =>
      .error "data did not match any variant of untagged enum PromptInput"
  | .str s =>
    ((rustSplitComma s).filter (fun part => !(rustTrim part == ""))).mapM
      promptTokenParse

/-- `GoogleUser`, from `src/fireauth2/src/models/google_user.rs`: the
persisted user record; `id` is the store key (not persisted as a field). -/
structure GoogleUser where
  id : String
  email : Option String
  refresh_token : Option String
  scope : List String
deriving DecidableEq, Repr

/-- The Firestore `googleUsers` collection, embedded as an association list
from document id to record. -/
def StoreState := List (String × GoogleUser)

/-- Firestore get-by-key primitive (successful read path). -/
def storeGet : StoreState → String → Option GoogleUser
  | [], _ => Option.none
  | (k, v) :: rest, id => if k = id then some v else storeGet rest id

/-- Firestore put-by-key primitive (successful write path): replace the
record under the key, or append it. -/
def storeSet : StoreState → String → GoogleUser → StoreState
  | [], id, u => [(id, u)]
  | (k, v) :: rest, id, u =>
    if k = id then (id, u) :: rest else (k, v) :: storeSet rest id u

/-- `StandardRevocableToken` of the `oauth2` crate: the token handed to the
provider revocation endpoint. -/
inductive RevocableToken where
  | accessToken (token : String)
  | refreshToken (token : String)
deriving DecidableEq, Repr

/-- `GoogleOAuthTokenResponse`: the provider token response
(`oauth2::StandardTokenResponse` with the extra `id_token` field of
`GoogleOAuthExtraTokenFields`, `src/fireauth2/src/client/types/extra_fields.rs`).
Only the fields the engine reads are embedded. -/
structure GoogleOAuthTokenResponse where
  access_token : String
  refresh_token : Option String
  scopes : Option (List String)
  expires_in : Option Nat
  id_token : String
deriving DecidableEq, Repr

/-- `google_oauth::GooglePayload`: the verified identity-token claims the
engine reads (`sub` and optional `email`). -/
structure GooglePayload where
  sub : String
  email : Option String
deriving DecidableEq, Repr

/-- The external collaborators of the engine, as oracles: the provider
code-exchange endpoint (applied to the code, the PKCE verifier and the
serialized extra parameters), the provider refresh-exchange endpoint, the
provider revocation endpoint, the identity-token verifier, the failure
behavior of the Firestore driver, and the clock. Error values carry the
rendered message of the external error. -/
structure WorldOracle where
  exchangeCode :
    String → String → List (String × String) →
      Except String GoogleOAuthTokenResponse
  refreshExchange : String → Except String GoogleOAuthTokenResponse
  revoke : RevocableToken → Except String Unit
  validateIdToken : String → Except String GooglePayload
  getError : String → Option String
  writeError : String → Option String
  now : Int

/-- `GoogleUserRepository::get`, from
`src/fireauth2/src/repositories/google_user.rs` lines 22-37: a driver
failure is mapped to `Error::Firestore`; otherwise the optional record is
returned. -/
def GoogleUserRepository.get (w : WorldOracle) (st : StoreState)
    (id : String) : Except Error (Option GoogleUser) :=
  match w.getError id with
  | some msg => .error (.firestore msg)
  | Option.none => .ok (storeGet st id)

/-- `GoogleUserRepository::update`, from `google_user.rs` lines 39-52. The
underlying write result is bound to `_firestore_result` (after mapping the
driver error to `Error::Firestore`) and then discarded: the function
returns `Ok(())` on every path. The store changes only when the underlying
write succeeded. -/
def GoogleUserRepository.update (w : WorldOracle) (st : StoreState)
    (user : GoogleUser) : Except Error Unit × StoreState :=
  match w.writeError user.id with
  | some _msg => (.ok (), st)
  | Option.none => (.ok (), storeSet st user.id user)

/-- `ExchangeAuthorizationCodeConfig`, from
`src/fireauth2/src/client/authorization/flow.rs` lines 182-190 (URLs and
the newtypes `AuthorizationCode`/`PkceCodeVerifier` embedded as strings). -/
structure ExchangeAuthorizationCodeConfig where
  code : String
  pkce_verifier : String
  params : RequestAccessTokenExtraParams
  revoke_existing_tokens : Bool
  redirect_to : String
  csrf_token : String
  state : String
deriving DecidableEq, Repr

/-- `TokenRevocationConfig`, from
`src/fireauth2/src/client/types/revocation.rs`: flattened to the three
values its accessors expose. -/
structure TokenRevocationConfig where
  access_token : String
  revoke_refresh_token : Bool
  user_id : String
deriving DecidableEq, Repr

/-- `AuthorizationResponse`, from `flow.rs` lines 319-334. -/
inductive AuthorizationResponse where
  | error (url : String) (error : String)
  | success (url : String) (token : GoogleOAuthTokenResponse)
deriving DecidableEq, Repr

/-- The externally visible calls `exchange_authorization_code` performs, in
order to state which primitives a run did or did not invoke: how many times
the provider code-exchange endpoint was called, which tokens were handed to
the provider revocation endpoint, and which records were handed to the
store upsert. -/
structure Trace where
  exchangeCalls : Nat := 0
  revokes : List RevocableToken := []
  upserts : List GoogleUser := []
deriving DecidableEq, Repr

/-- `FireAuthClient::revoke_existing_tokens`, from
`src/fireauth2/src/fireauth.rs` lines 300-347: best-effort. A read failure
or a missing record or missing refresh token is logged and skipped; a
present refresh token is handed to the revocation endpoint and the outcome
of that call is logged and ignored. Returns the revocation attempts made;
the store is never modified. -/
def FireAuthClient.revokeExistingTokens (w : WorldOracle) (st : StoreState)
    (user_id : String) : List RevocableToken :=
  match GoogleUserRepository.get w st user_id with
  | .error _ => []
  | .ok Option.none => []
  | .ok (some user) =>
    match user.refresh_token with
    | Option.none => []
    | some token => [RevocableToken.refreshToken token]

/-- `FireAuthClient::exchange_authorization_code`, from `fireauth.rs`
lines 113-208. Returns the `crate::Result` value together with the
resulting store state and the trace of external calls. -/
def FireAuthClient.exchangeAuthorizationCode (w : WorldOracle)
    (st : StoreState) (config : ExchangeAuthorizationCodeConfig) :
    Except Error AuthorizationResponse × StoreState × Trace :=
  if config.csrf_token ≠ config.state then
    (.ok (.error config.redirect_to "CSRF token mismatch"), st, {})
  else
    match
      w.exchangeCode config.code config.pkce_verifier
        config.params.toExtraParams
    with
    | .error e =>
      (.ok (.error config.redirect_to
          (Error.render (.tokenExchangeFailed e))),
        st, { exchangeCalls := 1 })
    | .ok response =>
      match w.validateIdToken response.id_token with
      | .error e =>
        (.ok (.error config.redirect_to e), st, { exchangeCalls := 1 })
      | .ok id_token_payload =>
        match response.refresh_token with
        | Option.none =>
          (.ok (.success config.redirect_to response), st,
            { exchangeCalls := 1 })
        | some refresh_token =>
          let google_user_id := id_token_payload.sub
          let revokes :=
            if config.revoke_existing_tokens then
              FireAuthClient.revokeExistingTokens w st google_user_id
            else []
          let google_user : GoogleUser :=
            { id := google_user_id
              refresh_token := some refresh_token
              email := id_token_payload.email
              scope := response.scopes.getD [] }
          (.ok (.success config.redirect_to response),
            (GoogleUserRepository.update w st google_user).2,
            { exchangeCalls := 1, revokes := revokes,
              upserts := [google_user] })

/-- `ExchangeRefreshTokenResponse`, from `flow.rs` lines 289-298. -/
structure ExchangeRefreshTokenResponse where
  access_token : String
  id_token : String
  issued_at : Int
  expires_in : Nat
deriving DecidableEq, Repr

/-- `impl From<GoogleOAuthTokenResponse> for ExchangeRefreshTokenResponse`,
from `flow.rs` lines 300-312: `issued_at` is the clock reading at
response-construction time and a missing `expires_in` becomes `0`. -/
def ExchangeRefreshTokenResponse.ofTokenResponse (now : Int)
    (t : GoogleOAuthTokenResponse) : ExchangeRefreshTokenResponse :=
  { access_token := t.access_token
    id_token := t.id_token
    issued_at := now
    expires_in := t.expires_in.getD 0 }

/-- `FireAuthClient::exchange_refresh_token`, from `fireauth.rs`
lines 81-109. -/
def FireAuthClient.exchangeRefreshToken (w : WorldOracle) (st : StoreState)
    (google_user_id : String) : Except Error ExchangeRefreshTokenResponse :=
  match GoogleUserRepository.get w st google_user_id with
  | .error e => .error e
  | .ok Option.none => .error Error.userNotFound
  | .ok (some google_user) =>
    match google_user.refresh_token with
    | Option.none =>
      .error (.tokenExchangeFailed "No refresh token found for user")
    | some refresh_token =>
      match w.refreshExchange refresh_token with
      | .error e => .error (.tokenExchangeFailed e)
      | .ok token_result =>
        .ok (ExchangeRefreshTokenResponse.ofTokenResponse w.now token_result)

/-- `FireAuthClient::revoke_token`, from `fireauth.rs` lines 238-261.
Returns the `crate::Result` value together with the revocation attempts
made, in order. Each `revoke_revocable_token` failure is mapped to
`Error::TokenRevocationFailed` and propagated with `?`; a store read
failure in the refresh branch is likewise propagated. -/
def FireAuthClient.revokeToken (w : WorldOracle) (st : StoreState)
    (config : TokenRevocationConfig) :
    Except Error Unit × List RevocableToken :=
  let accessAttempt := RevocableToken.accessToken config.access_token
  match w.revoke accessAttempt with
  | .error e => (.error (.tokenRevocationFailed e), [accessAttempt])
  | .ok _ =>
    if config.revoke_refresh_token then
      match GoogleUserRepository.get w st config.user_id with
      | .error e => (.error e, [accessAttempt])
      | .ok google_user =>
        match google_user.bind (fun user => user.refresh_token) with
        | Option.none => (.ok (), [accessAttempt])
        | some token =>
          let refreshAttempt := RevocableToken.refreshToken token
          match w.revoke refreshAttempt with
          | .error e =>
            (.error (.tokenRevocationFailed e),
              [accessAttempt, refreshAttempt])
          | .ok _ => (.ok (), [accessAttempt, refreshAttempt])
    else
      (.ok (), [accessAttempt])

/-- Whether a token is one of the three known prompt values, i.e. whether
`Prompt::from_str` accepts it. -/
def isKnownPromptTok (t : String) : Bool :=
  match Prompt.fromStr t with
  | .ok _ => true
  | .error _ => false

/-- Helper for the substring checks: whether the second character list is
an initial segment of the first. -/
def charsStartWith : List Char → List Char → Bool
  | _, [] => true
  | [], _ :: _ => false
  | a :: as, b :: bs => a = b && charsStartWith as bs

/-- Helper for the substring checks: whether the second character list
occurs contiguously inside the first. -/
def charsContain : List Char → List Char → Bool
  | [], sub => sub.isEmpty
  | a :: as, sub => charsStartWith (a :: as) sub || charsContain as sub

/-- Whether `sub` occurs as a contiguous substring of `hay`. -/
def stringContainsSub (hay sub : String) : Bool :=
  charsContain hay.data sub.data

/-- The terminal outcome the spec prescribes for a callback exchange that
passed CSRF validation (spec section 4.4, states 3-6): a code-exchange
failure or an identity-verification failure becomes an `Error` redirect
carrying `redirect_to` and the failure message; otherwise the flow ends in
`Success` carrying `redirect_to` and the obtained token. Failures of the
best-effort revocation or of the persistence step do not appear: the
outcome does not depend on the revocation oracle or the store write
oracle. -/
def exchangeOutcomeSpec (w : WorldOracle)
    (config : ExchangeAuthorizationCodeConfig) : AuthorizationResponse :=
  match
    w.exchangeCode config.code config.pkce_verifier
      config.params.toExtraParams
  with
  | .error e =>
    .error config.redirect_to ("Failed to exchange token: " ++ e)
  | .ok response =>
    match w.validateIdToken response.id_token with
    | .error e => .error config.redirect_to e
    | .ok _ => .success config.redirect_to response

/-- The outcome the spec prescribes for `ExchangeRefreshToken` (spec
section 4.5): no stored record is `UserNotFound`; a record without a
refresh token is a token-exchange error naming the missing refresh token;
otherwise the provider refresh primitive decides, and its response carries
the new access token, the issuance time and the expiry. -/
def refreshOutcomeSpec (w : WorldOracle) (st : StoreState)
    (user_id : String) : Except Error ExchangeRefreshTokenResponse :=
  match storeGet st user_id with
  | Option.none => .error Error.userNotFound
  | some user =>
    match user.refresh_token with
    | Option.none =>
      .error (.tokenExchangeFailed "No refresh token found for user")
    | some rt =>
      match w.refreshExchange rt with
      | .error e => .error (.tokenExchangeFailed e)
      | .ok t =>
        .ok { access_token := t.access_token
              id_token := t.id_token
              issued_at := w.now
              expires_in := t.expires_in.getD 0 }

/-- The outcome and revocation attempts the spec prescribes for
`RevokeToken` (spec section 4.5): the access token is always revoked first
and a failure there is fatal; only when `revoke_refresh_token` is set and a
stored refresh token exists is a second revocation attempted, whose failure
is surfaced; with no stored refresh token the call succeeds after the
single access-token attempt. -/
def revokeOutcomeSpec (w : WorldOracle) (st : StoreState)
    (config : TokenRevocationConfig) :
    Except Error Unit × List RevocableToken :=
  match w.revoke (.accessToken config.access_token) with
  | .error e =>
    (.error (.tokenRevocationFailed e), [.accessToken config.access_token])
  | .ok _ =>
    if config.revoke_refresh_token then
      match (storeGet st config.user_id).bind
          (fun user => user.refresh_token) with
      | Option.none => (.ok (), [.accessToken config.access_token])
      | some t =>
        match w.revoke (.refreshToken t) with
        | .error e =>
          (.error (.tokenRevocationFailed e),
            [.accessToken config.access_token, .refreshToken t])
        | .ok _ =>
          (.ok (), [.accessToken config.access_token, .refreshToken t])
    else
      (.ok (), [.accessToken config.access_token])

/-- Fixture: a default parameter set. -/
def witParams : RequestAccessTokenExtraParams := {}

/-- Fixture: a stored user record with a refresh token. -/
def witUser : GoogleUser :=
  { id := "sub-1", email := some "old@example.com",
    refresh_token := some "old-rt", scope := ["email"] }

/-- Fixture: a stored user record without a refresh token. -/
def witUserNoRt : GoogleUser :=
  { id := "sub-2", email := some "two@example.com",
    refresh_token := Option.none, scope := ["email"] }

/-- Fixture: a store holding the two fixture records. -/
def witStore : StoreState := [("sub-1", witUser), ("sub-2", witUserNoRt)]

/-- Fixture: a provider token response that carries a refresh token. -/
def witToken : GoogleOAuthTokenResponse :=
  { access_token := "at-1", refresh_token := some "rt-1",
    scopes := some ["email", "profile"], expires_in := some 3599,
    id_token := "idtok-1" }

/-- Fixture: verified identity-token claims for subject `sub-1`. -/
def witPayload : GooglePayload :=
  { sub := "sub-1", email := some "user@example.com" }

/-- Fixture: a world whose provider exchange and verification succeed but
whose revocation endpoint and Firestore writes fail. -/
def witWorld : WorldOracle :=
  { exchangeCode := fun _ _ _ => .ok witToken
    refreshExchange := fun _ => .ok witToken
    revoke := fun _ => .error "revocation endpoint unreachable"
    validateIdToken := fun _ => .ok witPayload
    getError := fun _ => Option.none
    writeError := fun _ => some "firestore write failed"
    now := 1700000000 }

/-- Fixture: a world in which every external call succeeds. -/
def witWorldOk : WorldOracle :=
  { exchangeCode := fun _ _ _ => .ok witToken
    refreshExchange := fun _ => .ok witToken
    revoke := fun _ => .ok ()
    validateIdToken := fun _ => .ok witPayload
    getError := fun _ => Option.none
    writeError := fun _ => Option.none
    now := 1700000000 }

/-- Fixture: an exchange configuration whose CSRF token matches the
observed state. -/
def witConfig : ExchangeAuthorizationCodeConfig :=
  { code := "code-1", pkce_verifier := "pkce-1", params := witParams,
    revoke_existing_tokens := true,
    redirect_to := "https://app.example/done",
    csrf_token := "tok", state := "tok" }

/-- Fixture: an exchange configuration whose CSRF token differs from the
observed state. -/
def witConfigMismatch : ExchangeAuthorizationCodeConfig :=
  { code := "code-1", pkce_verifier := "pkce-1", params := witParams,
    revoke_existing_tokens := true,
    redirect_to := "https://app.example/done",
    csrf_token := "tokA", state := "tokB" }

/-- Fixture: a revocation request for a user with no stored refresh
token, asking for the refresh token to be revoked as well. -/
def witRevCfg : TokenRevocationConfig :=
  { access_token := "at-1", revoke_refresh_token := true,
    user_id := "sub-2" }

/-- Claim C7: parsing a scope list from the empty string or the empty array
fails with an error containing "at least one scope" (and no input ever
yields an empty scope list), while the string "read write" and the array
containing "read" and "write" both parse to the same two-element list. -/
theorem scope_parsing_c7 :
    (ScopeList.deserialize (.str "")
        = .error "scopes string must contain at least one scope")
  ∧ (ScopeList.deserialize (.arr [])
        = .error "scopes array must contain at least one scope")
  ∧ stringContainsSub "scopes string must contain at least one scope"
      "at least one scope" = true
  ∧ stringContainsSub "scopes array must contain at least one scope"
      "at least one scope" = true
  ∧ ScopeList.deserialize (.str "read write") = .ok ["read", "write"]
  ∧ ScopeList.deserialize (.arr ["read", "write"]) = .ok ["read", "write"]
  ∧ ∀ inp : ScopesInput, ScopeList.deserialize inp ≠ .ok [] := by
  refine ⟨rfl, rfl, by decide, by decide, rfl, rfl, ?_⟩
  intro inp h
  cases inp with
  | str v =>
    simp only [ScopeList.deserialize] at h
    split at h
    · cases h
    · rename_i hne
      rw [Except.ok.injEq] at h
      rw [h] at hne
      simp at hne
  | arr xs =>
    simp only [ScopeList.deserialize] at h
    split at h
    · cases h
    · rename_i hne
      rw [Except.ok.injEq] at h
      rw [h] at hne
      simp at hne

/-- Claim C10: serializing an extra parameter set emits an
`include_granted_scopes` entry exactly when the flag is true; when the flag
is false the pair is omitted entirely rather than emitted with the value
"false". -/
theorem include_granted_scopes_serialization_c10
    (p : RequestAccessTokenExtraParams) :
    p.toExtraParams.filter
        (fun kv => kv.1 == ExtraParam.INCLUDE_GRANTED_SCOPES) =
      if p.include_granted_scopes then
        [(ExtraParam.INCLUDE_GRANTED_SCOPES, "true")]
      else [] := by
  obtain ⟨igs, lh, atype, pr⟩ := p
  cases igs <;> cases lh <;>
    simp [RequestAccessTokenExtraParams.toExtraParams, ExtraParam.ACCESS_TYPE,
      ExtraParam.INCLUDE_GRANTED_SCOPES, ExtraParam.LOGIN_HINT,
      ExtraParam.PROMPT, PromptList.intoExtraParam, List.filter_append,
      List.filter, toString]

/-- Claim C9 as amended: serialization always emits an `access_type` entry
and a `prompt` entry, even for the all-defaults parameter set, and emits a
`login_hint` entry exactly when `login_hint` is present; but for the
all-defaults parameter set the emitted prompt value is "none" (the
`PromptList` default), not "consent". -/
theorem extra_params_serialization_c9_amended
    (p : RequestAccessTokenExtraParams) :
    ((p.toExtraParams.lookup ExtraParam.ACCESS_TYPE).isSome = true)
  ∧ ((p.toExtraParams.lookup ExtraParam.PROMPT).isSome = true)
  ∧ ((p.toExtraParams.lookup ExtraParam.LOGIN_HINT).isSome = true
      ↔ p.login_hint.isSome = true)
  ∧ ((RequestAccessTokenExtraParams.toExtraParams {}).lookup
        ExtraParam.PROMPT = some "none") := by
  obtain ⟨igs, lh, atype, pr⟩ := p
  refine ⟨?_, ?_, ?_, by decide⟩ <;>
    cases igs <;> cases lh <;>
      simp [RequestAccessTokenExtraParams.toExtraParams,
        ExtraParam.ACCESS_TYPE, ExtraParam.INCLUDE_GRANTED_SCOPES,
        ExtraParam.LOGIN_HINT, ExtraParam.PROMPT,
        PromptList.intoExtraParam, List.lookup]

/-- Claim C9, counterexample: for the parameter set constructed with all
defaults, the emitted `prompt` value is "none", not the claimed default
"consent". -/
theorem extra_params_default_prompt_c9_cex :
    ((RequestAccessTokenExtraParams.toExtraParams {}).lookup
        ExtraParam.PROMPT = some "none")
  ∧ ¬ ((RequestAccessTokenExtraParams.toExtraParams {}).lookup
        ExtraParam.PROMPT = some "consent") := by
  constructor
  · decide
  · decide

/-- The `mapM` over the option-valued prompt-variant parser succeeds with
the parsed list exactly when every element is a known variant. -/
theorem mapM_promptOfString_eq (xs : List String) :
    xs.mapM promptOfString? =
      if xs.all (fun t => (promptOfString? t).isSome) then
        some (xs.filterMap promptOfString?)
      else Option.none := by
  induction xs with
  | nil => rfl
  | cons x xs ih =>
    rw [List.mapM_cons, ih]
    cases hx : promptOfString? x with
    | none => simp [hx]
    | some p =>
      cases hall : xs.all (fun t => (promptOfString? t).isSome) with
      | true => simp [hx, hall]
      | false => simp [hx, hall]

/-- The `mapM` over the string-arm token parser fails on the first trimmed
token `Prompt::from_str` rejects, naming it, and otherwise collects the
parsed prompts of the trimmed tokens. -/
theorem mapM_promptTokenParse_eq (l : List String) :
    l.mapM promptTokenParse =
      (match (l.map rustTrim).find? (fun t => !(isKnownPromptTok t)) with
       | some bad =>
         Except.error ("Invalid prompt value: \x27" ++ bad ++ "\x27")
       | Option.none =>
         Except.ok ((l.map rustTrim).filterMap
           (fun t => (Prompt.fromStr t).toOption))) := by
  induction l with
  | nil => rfl
  | cons part l ih =>
    rw [List.mapM_cons, ih]
    cases hp : Prompt.fromStr (rustTrim part) with
    | ok p =>
      have hk : isKnownPromptTok (rustTrim part) = true := by
        simp [isKnownPromptTok, hp]
      have hparse : promptTokenParse part = .ok p := by
        simp [promptTokenParse, hp]
      cases hfind :
          (l.map rustTrim).find? (fun t => !(isKnownPromptTok t)) with
      | some bad =>
        simp only [hparse, List.map_cons, List.find?_cons, hk,
          Bool.not_true, hfind]
        rfl
      | none =>
        simp only [hparse, List.find?_cons, hk, Bool.not_true, hfind,
          List.map_cons, List.filterMap_cons, Function.comp, hp,
          Except.toOption]
        rfl
    | error e =>
      have hk : isKnownPromptTok (rustTrim part) = false := by
        simp [isKnownPromptTok, hp]
      have hparse : promptTokenParse part =
          .error ("Invalid prompt value: \x27" ++ rustTrim part ++ "\x27") := by
        simp [promptTokenParse, hp]
      simp only [hparse, List.find?_cons, hk, Bool.not_false, List.map_cons]
      rfl

/-- Trimming each comma piece and then dropping the empty ones is the same
as dropping the pieces that trim to empty and then trimming. -/
theorem map_filter_trim_swap (l : List String) :
    ((l.map rustTrim).filter (fun t => !(t == ""))) =
      ((l.filter (fun part => !(rustTrim part == ""))).map rustTrim) := by
  induction l with
  | nil => rfl
  | cons x l ih =>
    by_cases hx : rustTrim x = ""
    · simp [List.filter_cons, hx, ih]
    · simp [List.filter_cons, hx, ih]

/-- Claim C8 as amended: prompt input is accepted either as an array of
prompt values or as a single comma-separated string (whitespace around each
comma-separated token is trimmed; space is not a separator). In the string
form, the first token that is not one of none, consent, select_account
fails parsing with an "Invalid prompt value" error carrying that token, and
a string of only known tokens parses to the corresponding ordered list. In
the array form, any unknown value makes the untagged input fail with
serde's generic message, and an array of only known values parses to the
corresponding ordered list. -/
theorem prompt_parsing_c8_amended (xs : List String) (s : String) :
    (PromptList.deserialize (.list xs) =
      if xs.all (fun t => (promptOfString? t).isSome) then
        Except.ok (xs.filterMap promptOfString?)
      else
        Except.error "data did not match any variant of untagged enum PromptInput")
  ∧ (PromptList.deserialize (.str s) =
      (match ((rustSplitComma s).map rustTrim).filter (fun t => !(t == ""))
          |>.find? (fun t => !(isKnownPromptTok t)) with
       | some bad =>
         Except.error ("Invalid prompt value: \x27" ++ bad ++ "\x27")
       | Option.none =>
         Except.ok ((((rustSplitComma s).map rustTrim).filter
             (fun t => !(t == ""))).filterMap
           (fun t => (Prompt.fromStr t).toOption)))) := by
  constructor
  · simp only [PromptList.deserialize, mapM_promptOfString_eq]
    cases hall : xs.all (fun t => (promptOfString? t).isSome) <;> simp
  · simp only [PromptList.deserialize, mapM_promptTokenParse_eq,
      map_filter_trim_swap]

/-- Claim C8, counterexample: the space-separated string "none consent" is
made only of known prompt tokens, yet it does not parse to the prompt list
it names; it fails, carrying the whole string as one offending token,
because only commas separate tokens. -/
theorem prompt_space_separated_c8_cex :
    (PromptList.deserialize (.str "none consent") =
      .error "Invalid prompt value: \x27none consent\x27")
  ∧ PromptList.deserialize (.str "none consent")
      ≠ .ok [Prompt.none, Prompt.consent] := by
  refine ⟨rfl, ?_⟩
  intro h
  rw [show PromptList.deserialize (.str "none consent") =
      .error "Invalid prompt value: \x27none consent\x27" from rfl] at h
  cases h

/-- Claim C1: whenever the session's CSRF token differs from the observed
`state` query parameter, `exchange_authorization_code` returns an `Error`
result carrying the session's `redirect_to` and the message
"CSRF token mismatch", leaves the store untouched, and performs no external
call at all: in particular the provider code-exchange primitive is never
invoked. -/
theorem csrf_mismatch_halts_c1 (w : WorldOracle) (st : StoreState)
    (config : ExchangeAuthorizationCodeConfig)
    (h : config.csrf_token ≠ config.state) :
    FireAuthClient.exchangeAuthorizationCode w st config =
      (.ok (.error config.redirect_to "CSRF token mismatch"), st,
        { exchangeCalls := 0, revokes := [], upserts := [] }) := by
  simp [FireAuthClient.exchangeAuthorizationCode, h]

/-- Claim C1, witness: the mismatch fixture halts with the CSRF error. -/
theorem csrf_mismatch_halts_c1_witness :
    witConfigMismatch.csrf_token ≠ witConfigMismatch.state
  ∧ FireAuthClient.exchangeAuthorizationCode witWorld witStore
      witConfigMismatch =
      (.ok (.error witConfigMismatch.redirect_to "CSRF token mismatch"),
        witStore, { exchangeCalls := 0, revokes := [], upserts := [] }) :=
  ⟨by decide,
    csrf_mismatch_halts_c1 witWorld witStore witConfigMismatch (by decide)⟩

/-- Claim C3: every exchange that passes CSRF validation ends in a terminal
`Ok` authorization result, never a propagated error: a code-exchange or
identity-verification failure becomes an `Error` result carrying
`redirect_to` and the failure message, and otherwise the result is the
`Success` carrying `redirect_to` and the obtained token — the outcome
(`exchangeOutcomeSpec`) does not depend on the revocation oracle or on the
store write oracle, so best-effort revocation failures and upsert failures
cannot change it. -/
theorem exchange_terminal_result_c3 (w : WorldOracle) (st : StoreState)
    (config : ExchangeAuthorizationCodeConfig)
    (h : config.csrf_token = config.state) :
    (FireAuthClient.exchangeAuthorizationCode w st config).1 =
      Except.ok (exchangeOutcomeSpec w config) := by
  unfold FireAuthClient.exchangeAuthorizationCode exchangeOutcomeSpec
  rw [if_neg (not_not_intro h)]
  cases hex : w.exchangeCode config.code config.pkce_verifier
      config.params.toExtraParams with
  | error e => simp [Error.render]
  | ok response =>
    cases hval : w.validateIdToken response.id_token with
    | error e => simp [hval]
    | ok payload =>
      cases hrt : response.refresh_token with
      | none => simp [hval, hrt]
      | some rt => simp [hval, hrt]

/-- Claim C3, witness: in the fixture world whose revocation endpoint and
store writes both fail, the matching-CSRF exchange still returns the
spec-prescribed terminal result (a `Success`). -/
theorem exchange_terminal_result_c3_witness :
    witConfig.csrf_token = witConfig.state
  ∧ (FireAuthClient.exchangeAuthorizationCode witWorld witStore
        witConfig).1 =
      Except.ok (exchangeOutcomeSpec witWorld witConfig) :=
  ⟨rfl, exchange_terminal_result_c3 witWorld witStore witConfig rfl⟩

/-- Claim C2: in a CSRF-valid exchange whose code exchange and identity
verification succeed, the store is written exactly when the provider
response carries a refresh token. Without one, the whole store (hence every
previously stored record and its `refresh_token` field) is left unchanged
and nothing is handed to the upsert. With one, the record keyed by the
verified subject id — holding the new refresh token, the verified email and
the granted scopes — is handed to the store upsert, and the resulting store
is exactly that upsert's result. -/
theorem exchange_store_write_c2 (w : WorldOracle) (st : StoreState)
    (config : ExchangeAuthorizationCodeConfig)
    (response : GoogleOAuthTokenResponse) (payload : GooglePayload)
    (hcsrf : config.csrf_token = config.state)
    (hex : w.exchangeCode config.code config.pkce_verifier
        config.params.toExtraParams = .ok response)
    (hval : w.validateIdToken response.id_token = .ok payload) :
    (match response.refresh_token with
     | Option.none =>
       FireAuthClient.exchangeAuthorizationCode w st config =
         (.ok (.success config.redirect_to response), st,
           { exchangeCalls := 1, revokes := [], upserts := [] })
     | some rt =>
       ((FireAuthClient.exchangeAuthorizationCode w st config).2.1 =
           (GoogleUserRepository.update w st
             { id := payload.sub, email := payload.email,
               refresh_token := some rt,
               scope := response.scopes.getD [] }).2
         ∧ (FireAuthClient.exchangeAuthorizationCode w st config).2.2.upserts =
             [{ id := payload.sub, email := payload.email,
                refresh_token := some rt,
                scope := response.scopes.getD [] }])) := by
  cases hrt : response.refresh_token with
  | none =>
    simp only [FireAuthClient.exchangeAuthorizationCode,
      if_neg (not_not_intro hcsrf), hex, hval, hrt]
  | some rt =>
    simp only [FireAuthClient.exchangeAuthorizationCode,
      if_neg (not_not_intro hcsrf), hex, hval, hrt]
    trivial

/-- Claim C2, witness: the fixture exchange whose response carries the
refresh token `rt-1` upserts the record for subject `sub-1`. -/
theorem exchange_store_write_c2_witness :
    witConfig.csrf_token = witConfig.state
  ∧ witWorldOk.exchangeCode witConfig.code witConfig.pkce_verifier
      witConfig.params.toExtraParams = .ok witToken
  ∧ witWorldOk.validateIdToken witToken.id_token = .ok witPayload
  ∧ (match witToken.refresh_token with
     | Option.none =>
       FireAuthClient.exchangeAuthorizationCode witWorldOk witStore
           witConfig =
         (.ok (.success witConfig.redirect_to witToken), witStore,
           { exchangeCalls := 1, revokes := [], upserts := [] })
     | some rt =>
       ((FireAuthClient.exchangeAuthorizationCode witWorldOk witStore
             witConfig).2.1 =
           (GoogleUserRepository.update witWorldOk witStore
             { id := witPayload.sub, email := witPayload.email,
               refresh_token := some rt,
               scope := witToken.scopes.getD [] }).2
         ∧ (FireAuthClient.exchangeAuthorizationCode witWorldOk witStore
               witConfig).2.2.upserts =
             [{ id := witPayload.sub, email := witPayload.email,
                refresh_token := some rt,
                scope := witToken.scopes.getD [] }])) :=
  ⟨rfl, rfl, rfl,
    exchange_store_write_c2 witWorldOk witStore witConfig witToken
      witPayload rfl rfl rfl⟩

/-- Claim C4, divergence: `GoogleUserRepository::update` returns `Ok(())`
and leaves the store unchanged even when the underlying Firestore write
fails — the mapped write error is bound to the discarded
`_firestore_result` instead of being returned, so the claimed
`Upsert(user) -> () | StoreError` contract is not met on the failure
path. -/
theorem update_swallows_write_failure_c4 (w : WorldOracle)
    (st : StoreState) (user : GoogleUser) (msg : String)
    (h : w.writeError user.id = some msg) :
    GoogleUserRepository.update w st user = (Except.ok (), st) := by
  simp [GoogleUserRepository.update, h]

/-- Claim C4, witness: in the fixture world whose Firestore writes fail,
updating the stored record still returns `Ok(())`. -/
theorem update_swallows_write_failure_c4_witness :
    witWorld.writeError witUser.id = some "firestore write failed"
  ∧ GoogleUserRepository.update witWorld witStore witUser =
      (Except.ok (), witStore) :=
  ⟨rfl,
    update_swallows_write_failure_c4 witWorld witStore witUser
      "firestore write failed" rfl⟩

/-- Claim C5: when the store read itself succeeds,
`exchange_refresh_token` returns `UserNotFound` if no record is stored for
the id, a token-exchange error naming the missing refresh token if the
record has none, and otherwise the provider refresh primitive's outcome,
mapped to a response carrying the new access token, the issuance time and
the expiry (`refreshOutcomeSpec`). -/
theorem refresh_token_exchange_c5 (w : WorldOracle) (st : StoreState)
    (user_id : String) (h : w.getError user_id = Option.none) :
    FireAuthClient.exchangeRefreshToken w st user_id =
      refreshOutcomeSpec w st user_id := by
  unfold FireAuthClient.exchangeRefreshToken refreshOutcomeSpec
    GoogleUserRepository.get
  rw [h]
  cases hg : storeGet st user_id with
  | none => rfl
  | some user =>
    cases hrt : user.refresh_token with
    | none => rfl
    | some rt =>
      cases hx : w.refreshExchange rt with
      | error e => rfl
      | ok t => rfl

/-- Claim C5, witness: the refresh exchange for the stored fixture user
follows the spec outcome. -/
theorem refresh_token_exchange_c5_witness :
    witWorldOk.getError "sub-1" = Option.none
  ∧ FireAuthClient.exchangeRefreshToken witWorldOk witStore "sub-1" =
      refreshOutcomeSpec witWorldOk witStore "sub-1" :=
  ⟨rfl, refresh_token_exchange_c5 witWorldOk witStore "sub-1" rfl⟩

/-- Claim C6: when the store read itself succeeds, `revoke_token` always
attempts the access-token revocation first and fails if it fails; with
`revoke_refresh_token` set and no stored refresh token (no record, or a
record without one) it succeeds after that single attempt; with a stored
refresh token it attempts that second revocation and surfaces its failure
(`revokeOutcomeSpec` fixes both the result and the exact list of
revocation attempts). -/
theorem revoke_token_c6 (w : WorldOracle) (st : StoreState)
    (config : TokenRevocationConfig)
    (h : w.getError config.user_id = Option.none) :
    FireAuthClient.revokeToken w st config =
      revokeOutcomeSpec w st config := by
  unfold FireAuthClient.revokeToken revokeOutcomeSpec
    GoogleUserRepository.get
  rw [h]

/-- Claim C6, witness: revoking for the fixture user without a stored
refresh token follows the spec outcome (one access-token attempt,
success). -/
theorem revoke_token_c6_witness :
    witWorldOk.getError witRevCfg.user_id = Option.none
  ∧ FireAuthClient.revokeToken witWorldOk witStore witRevCfg =
      revokeOutcomeSpec witWorldOk witStore witRevCfg :=
  ⟨rfl, revoke_token_c6 witWorldOk witStore witRevCfg rfl⟩
